import Mathlib

/-!
Shallow embedding of the intrusive reference-counting primitives in
JoltPhysics, file Jolt/Core/Reference.h: the RefTarget counted base class
and the Ref / RefConst counted handle templates.

The uint32 counter is modelled as a Nat reduced modulo 2 ^ 32 at every
mutation.  JPH_ASSERT conditions are modelled as separate Bool-valued
functions.  Destruction (the delete in Release) is modelled as a Bool
result, and on heaps as a per-object destroyed flag.  Handles store an
Option Nat: none is the C++ null pointer, some p an object identity p.
-/

set_option maxRecDepth 8000

namespace JoltRef

/-- Modulus of the unsigned 32-bit counter type uint32. -/
def u32Size : Nat := 2 ^ 32

namespace RefTarget

/-- Source constant RefTarget::cEmbedded = 0x0ebedded, the sentinel bias
added to the refcount to mark an object as embedded. -/
def cEmbedded : Nat := 0x0ebedded

/-- Source RefTarget::RefTarget(): the counter starts at 0. -/
def construct : Nat := 0

/-- Source RefTarget::RefTarget(const RefTarget &): the new object's
counter is initialised to 0; the argument is ignored. -/
def copyConstruct (_src : Nat) : Nat := 0

/-- Source RefTarget::operator=(const RefTarget &): returns *this and
touches neither counter; given both operands' counters it returns them
unchanged. -/
def assign (dst src : Nat) : Nat × Nat := (dst, src)

/-- Source RefTarget::GetRefCount(): returns the counter. -/
def GetRefCount (c : Nat) : Nat := c

/-- Source RefTarget::AddRef(): ++mRefCount on a uint32. -/
def AddRef (c : Nat) : Nat := (c + 1) % u32Size

/-- Source RefTarget::Release(): pre-decrements the uint32 counter and
deletes the object (through static_cast to the derived type) exactly when
the decremented value is 0.  Result: (new counter value, destroyed?). -/
def Release (c : Nat) : Nat × Bool :=
  ((c + (u32Size - 1)) % u32Size, (c + (u32Size - 1)) % u32Size == 0)

/-- Source JPH_ASSERT(mRefCount < cEmbedded) guarding SetEmbedded. -/
def SetEmbeddedAssert (c : Nat) : Bool := decide (c < cEmbedded)

/-- Source RefTarget::SetEmbedded(): mRefCount += cEmbedded on a uint32. -/
def SetEmbedded (c : Nat) : Nat := (c + cEmbedded) % u32Size

/-- Source JPH_ASSERT(mRefCount == 0 || mRefCount == cEmbedded) in the
RefTarget destructor. -/
def destructorAssert (c : Nat) : Bool := c == 0 || c == cEmbedded

/-- Source JPH_ASSERT(inRefCount >= 0) guarding SetRefCountInternal; the
argument is a uint32 so the comparison is over unsigned values. -/
def SetRefCountInternalAssert (v : Nat) : Bool := decide (0 ≤ v)

/-- Source RefTarget::SetRefCountInternal(uint32): overwrites the counter
with the argument (reduced into uint32 range). -/
def SetRefCountInternal (_c v : Nat) : Nat := v % u32Size

end RefTarget

/-- Iterated RefTarget::Release: the counter value after k successive
Release calls starting from counter c. -/
def releaseIter (c : Nat) : Nat → Nat
  | 0 => c
  | k + 1 => (RefTarget.Release (releaseIter c k)).1

/-- Counter operations of the RefTarget interface, for reasoning about
call sequences on one object. -/
inductive Op where
  | addRef : Op
  | release : Op
  | setEmbedded : Op

/-- Effect of one operation on the uint32 counter, per the source. -/
def applyOp (c : Nat) : Op → Nat
  | Op.addRef => RefTarget.AddRef c
  | Op.release => (RefTarget.Release c).1
  | Op.setEmbedded => RefTarget.SetEmbedded c

/-- Counter value after running a whole sequence of operations. -/
def applyOps (c : Nat) : List Op → Nat
  | [] => c
  | op :: t => applyOps (applyOp c op) t

/-- Number of AddRef calls in a sequence. -/
def addCount : List Op → Nat
  | [] => 0
  | Op.addRef :: t => addCount t + 1
  | Op.release :: t => addCount t
  | Op.setEmbedded :: t => addCount t

/-- Number of Release calls in a sequence. -/
def relCount : List Op → Nat
  | [] => 0
  | Op.addRef :: t => relCount t
  | Op.release :: t => relCount t + 1
  | Op.setEmbedded :: t => relCount t

/-- Number of SetEmbedded calls in a sequence. -/
def embCount : List Op → Nat
  | [] => 0
  | Op.addRef :: t => embCount t
  | Op.release :: t => embCount t
  | Op.setEmbedded :: t => embCount t + 1

/-- Total additive effect of a sequence before reduction mod 2 ^ 32: each
uint32 pre-decrement is addition of 2 ^ 32 - 1. -/
def stepSum : List Op → Nat
  | [] => 0
  | Op.addRef :: t => 1 + stepSum t
  | Op.release :: t => (u32Size - 1) + stepSum t
  | Op.setEmbedded :: t => RefTarget.cEmbedded + stepSum t

/-- Heap of counted objects: per-identity counter and destroyed flag. -/
structure Heap where
  cnt : Nat → Nat
  destroyed : Nat → Bool

/-- Effect on the heap of calling AddRef on object p. -/
def Heap.targetAddRef (h : Heap) (p : Nat) : Heap :=
  { cnt := fun q => if q = p then RefTarget.AddRef (h.cnt p) else h.cnt q
    destroyed := h.destroyed }

/-- Effect on the heap of calling Release on object p: the counter is
decremented and the object is destroyed when the new value is 0. -/
def Heap.targetRelease (h : Heap) (p : Nat) : Heap :=
  { cnt := fun q => if q = p then (RefTarget.Release (h.cnt p)).1 else h.cnt q
    destroyed := fun q =>
      if q = p then h.destroyed q || (RefTarget.Release (h.cnt p)).2
      else h.destroyed q }

namespace Ref

/-- Source Ref<T>::AddRef(): if (mPtr != nullptr) mPtr->AddRef(). -/
def AddRef (h : Heap) (mPtr : Option Nat) : Heap :=
  match mPtr with
  | none => h
  | some p => h.targetAddRef p

/-- Source Ref<T>::Release(): if (mPtr != nullptr) mPtr->Release(). -/
def Release (h : Heap) (mPtr : Option Nat) : Heap :=
  match mPtr with
  | none => h
  | some p => h.targetRelease p

/-- Source Ref<T>::Ref(T *): stores the pointer and calls AddRef. -/
def construct (h : Heap) (p : Option Nat) : Heap × Option Nat :=
  (AddRef h p, p)

/-- Source Ref<T>::Ref(const Ref &): copies the pointer and calls AddRef. -/
def copyConstruct (h : Heap) (src : Option Nat) : Heap × Option Nat :=
  (AddRef h src, src)

/-- Source Ref<T>::Ref(Ref &&): takes the source's pointer, nulls the
source, and touches no counter.  Result: (heap, new mPtr, source mPtr). -/
def moveConstruct (h : Heap) (src : Option Nat) : Heap × Option Nat × Option Nat :=
  (h, src, none)

/-- Source Ref<T>::~Ref(): Release(). -/
def destruct (h : Heap) (self : Option Nat) : Heap :=
  Release h self

/-- Source Ref<T>::operator=(T *): if the stored pointer differs from the
argument, Release the old target, store the argument, AddRef it. -/
def assign (h : Heap) (self newPtr : Option Nat) : Heap × Option Nat :=
  if self = newPtr then (h, self)
  else (AddRef (Release h self) newPtr, newPtr)

/-- Source Ref<T>::operator=(const Ref &): same body as assignment from a
raw pointer, applied to inRHS.mPtr. -/
def assignRef (h : Heap) (self srcPtr : Option Nat) : Heap × Option Nat :=
  if self = srcPtr then (h, self)
  else (AddRef (Release h self) srcPtr, srcPtr)

/-- Source Ref<T>::operator=(Ref &&): if the pointers differ, Release the
old target, take the source's pointer, null the source; otherwise do
nothing.  Result: (heap, new mPtr, new source mPtr). -/
def moveAssign (h : Heap) (self src : Option Nat) : Heap × Option Nat × Option Nat :=
  if self = src then (h, self, src)
  else (Release h self, src, none)

/-- Source Ref<T>::operator==(const T *): pointer comparison. -/
def eqPtr (self p : Option Nat) : Bool := self == p

/-- Source Ref<T>::operator==(const Ref &): pointer comparison. -/
def eqRef (a b : Option Nat) : Bool := a == b

/-- Source Ref<T>::operator!=(const T *): pointer inequality. -/
def nePtr (self p : Option Nat) : Bool := self != p

/-- Source Ref<T>::operator!=(const Ref &): pointer inequality. -/
def neRef (a b : Option Nat) : Bool := a != b

/-- Source std::hash of Ref<T>: applies the pointer hash to GetPtr(),
for an arbitrary pointer hash function hp. -/
def hashOf (hp : Option Nat → Nat) (self : Option Nat) : Nat := hp self

end Ref

namespace RefConst

/-- Source RefConst<T>::AddRef(): if (mPtr != nullptr) mPtr->AddRef(). -/
def AddRef (h : Heap) (mPtr : Option Nat) : Heap :=
  match mPtr with
  | none => h
  | some p => h.targetAddRef p

/-- Source RefConst<T>::Release(): if (mPtr != nullptr) mPtr->Release(). -/
def Release (h : Heap) (mPtr : Option Nat) : Heap :=
  match mPtr with
  | none => h
  | some p => h.targetRelease p

/-- Source RefConst<T>::RefConst(RefConst &&): takes the source's pointer,
nulls the source, touches no counter. -/
def moveConstruct (h : Heap) (src : Option Nat) : Heap × Option Nat × Option Nat :=
  (h, src, none)

/-- Source RefConst<T>::RefConst(Ref &&): takes the Ref source's pointer,
nulls the source, touches no counter. -/
def moveConstructFromRef (h : Heap) (src : Option Nat) : Heap × Option Nat × Option Nat :=
  (h, src, none)

/-- Source RefConst<T>::operator=(const T *). -/
def assign (h : Heap) (self newPtr : Option Nat) : Heap × Option Nat :=
  if self = newPtr then (h, self)
  else (AddRef (Release h self) newPtr, newPtr)

/-- Source RefConst<T>::operator=(const RefConst &). -/
def assignRef (h : Heap) (self srcPtr : Option Nat) : Heap × Option Nat :=
  if self = srcPtr then (h, self)
  else (AddRef (Release h self) srcPtr, srcPtr)

/-- Source RefConst<T>::operator=(RefConst &&). -/
def moveAssign (h : Heap) (self src : Option Nat) : Heap × Option Nat × Option Nat :=
  if self = src then (h, self, src)
  else (Release h self, src, none)

/-- Source RefConst<T>::operator=(Ref &&). -/
def moveAssignFromRef (h : Heap) (self src : Option Nat) : Heap × Option Nat × Option Nat :=
  if self = src then (h, self, src)
  else (Release h self, src, none)

/-- Source RefConst<T>::operator==(const T *). -/
def eqPtr (self p : Option Nat) : Bool := self == p

/-- Source RefConst<T>::operator==(const RefConst &). -/
def eqRef (a b : Option Nat) : Bool := a == b

/-- Source RefConst<T>::operator!=(const RefConst &). -/
def neRef (a b : Option Nat) : Bool := a != b

/-- Source std::hash of RefConst<T>: applies the pointer hash to GetPtr(). -/
def hashOf (hp : Option Nat → Nat) (self : Option Nat) : Nat := hp self

end RefConst

/-- Decrementing a uint32 counter that is at least 1 and in range gives
the predecessor. -/
lemma release_val (c : Nat) (h1 : 1 ≤ c) (h2 : c < u32Size) :
    (RefTarget.Release c).1 = c - 1 := by
  have hu : 0 < u32Size := by decide
  have h4 : c + (u32Size - 1) = (c - 1) + 1 * u32Size := by omega
  simp only [RefTarget.Release]
  rw [h4, Nat.add_mul_mod_self_right]
  exact Nat.mod_eq_of_lt (by omega)

/-- The destroyed flag of Release is set exactly when the decremented
counter is 0. -/
lemma release_flag (c : Nat) :
    (RefTarget.Release c).2 = true ↔ (RefTarget.Release c).1 = 0 := by
  simp [RefTarget.Release]

/-- Iterating Release k ≤ c times from an in-range counter c subtracts k. -/
lemma releaseIter_val (c : Nat) (hc : c < u32Size) :
    ∀ k : Nat, k ≤ c → releaseIter c k = c - k := by
  intro k
  induction k with
  | zero => intro _; rfl
  | succ k ih =>
    intro hk
    have hk1 : k ≤ c := by omega
    rw [releaseIter, ih hk1, release_val (c - k) (by omega) (by omega)]
    omega

/-- Running a sequence of counter operations from an in-range start value
computes the start value plus the sequence's additive effect, mod 2 ^ 32. -/
lemma applyOps_eq_mod (l : List Op) :
    ∀ c : Nat, c < u32Size → applyOps c l = (c + stepSum l) % u32Size := by
  induction l with
  | nil =>
    intro c hc
    simp [applyOps, stepSum, Nat.mod_eq_of_lt hc]
  | cons op t ih =>
    intro c hc
    have hu : 0 < u32Size := by decide
    cases op with
    | addRef =>
      have h0 : applyOp c Op.addRef = (c + 1) % u32Size := rfl
      rw [applyOps, h0, ih _ (Nat.mod_lt _ hu), Nat.mod_add_mod]
      simp [stepSum]
      rw [Nat.add_assoc]
    | release =>
      have h0 : applyOp c Op.release = (c + (u32Size - 1)) % u32Size := rfl
      rw [applyOps, h0, ih _ (Nat.mod_lt _ hu), Nat.mod_add_mod]
      simp [stepSum]
      rw [Nat.add_assoc]
    | setEmbedded =>
      have h0 : applyOp c Op.setEmbedded = (c + RefTarget.cEmbedded) % u32Size := rfl
      rw [applyOps, h0, ih _ (Nat.mod_lt _ hu), Nat.mod_add_mod]
      simp [stepSum]
      rw [Nat.add_assoc]

/-- The additive effect of a sequence, decomposed by operation counts. -/
lemma stepSum_eq (l : List Op) :
    stepSum l + relCount l =
      addCount l + u32Size * relCount l + RefTarget.cEmbedded * embCount l := by
  induction l with
  | nil => simp [stepSum, relCount, addCount, embCount]
  | cons op t ih =>
    have hu : 1 ≤ u32Size := by decide
    cases op with
    | addRef =>
      simp only [stepSum, relCount, addCount, embCount]
      linarith
    | release =>
      simp only [stepSum, relCount, addCount, embCount, Nat.mul_succ]
      have : u32Size - 1 + 1 = u32Size := by omega
      linarith [this]
    | setEmbedded =>
      simp only [stepSum, relCount, addCount, embCount, Nat.mul_succ]
      linarith

/-- Claim C1: for an in-range counter value, Release decrements the
counter by one, the object is destroyed exactly when the decremented value
is 0 (equivalently, exactly when the prior value was 1), and when the
decremented value is non-zero the whole effect of Release is just the
decremented counter with no destruction. -/
theorem release_spec_c1 (c : Nat) (hlt : c < u32Size) :
    ((RefTarget.Release c).2 = true ↔ (RefTarget.Release c).1 = 0) ∧
    (1 ≤ c → (RefTarget.Release c).1 = c - 1) ∧
    ((RefTarget.Release c).2 = true ↔ c = 1) ∧
    (1 ≤ c → (RefTarget.Release c).2 = false →
      RefTarget.Release c = (c - 1, false)) := by
  refine ⟨release_flag c, fun h1 => release_val c h1 hlt, ?_, ?_⟩
  · rcases Nat.eq_zero_or_pos c with h0 | h1
    · subst h0
      rw [release_flag]
      have hz : (RefTarget.Release 0).1 = u32Size - 1 := by decide
      rw [hz]
      constructor
      · intro h
        exact absurd h (by decide)
      · intro h
        exact absurd h (by decide)
    · rw [release_flag, release_val c h1 hlt]
      omega
  · intro h1 hfalse
    have hv := release_val c h1 hlt
    have hp : RefTarget.Release c =
        ((RefTarget.Release c).1, (RefTarget.Release c).2) := rfl
    rw [hp, hv, hfalse]

/-- Witness for C1 at the concrete counter value 5. -/
theorem release_spec_c1_w : (RefTarget.Release 5).1 = 5 - 1 :=
  (release_spec_c1 5 (by decide)).2.1 (by decide)

/-- Claim C9: Release on a counter that is already 0 wraps the uint32
counter to 2 ^ 32 - 1 and reports no destruction, because the decremented
value is non-zero.  (The source Release contains no assertion, so no
diagnostic accompanies this unmatched release.) -/
theorem release_underflow_c9 :
    RefTarget.Release 0 = (u32Size - 1, false) ∧ u32Size - 1 ≠ 0 := by
  decide

/-- Claim C10: SetRefCountInternal overwrites the counter with exactly its
uint32 argument, and its guard assertion (inRefCount >= 0 on an unsigned
value) is true for every argument. -/
theorem set_ref_count_internal_c10 (c v : Nat) (hv : v < u32Size) :
    RefTarget.SetRefCountInternal c v = v ∧
    RefTarget.SetRefCountInternalAssert v = true := by
  constructor
  · show v % u32Size = v
    exact Nat.mod_eq_of_lt hv
  · show decide (0 ≤ v) = true
    exact decide_eq_true (Nat.zero_le v)

/-- Witness for C10 at counter 0 and argument 0xdeadbeef, a value far
outside the normal heap-owned range. -/
theorem set_ref_count_internal_c10_w :
    RefTarget.SetRefCountInternal 0 3735928559 = 3735928559 :=
  (set_ref_count_internal_c10 0 3735928559 (by decide)).1

/-- Claim C6: copy-constructing a RefTarget yields counter 0 regardless of
the source counter, and RefTarget copy assignment returns both operands'
counters unchanged. -/
theorem copy_fresh_counter_c6 (s d : Nat) :
    RefTarget.copyConstruct s = 0 ∧ RefTarget.assign d s = (d, s) :=
  ⟨rfl, rfl⟩

/-- Claim C4: with n prior net increments (n below the sentinel), the
SetEmbedded assertion passes, SetEmbedded adds the sentinel bias exactly
once, no sequence of up to n Release calls can drive the counter to 0
afterwards, and a second SetEmbedded trips the assertion. -/
theorem set_embedded_c4 (n : Nat) (hn : n < RefTarget.cEmbedded) :
    RefTarget.SetEmbeddedAssert n = true ∧
    RefTarget.SetEmbedded n = n + RefTarget.cEmbedded ∧
    (∀ k, k ≤ n → releaseIter (RefTarget.SetEmbedded n) k ≠ 0) ∧
    RefTarget.SetEmbeddedAssert (RefTarget.SetEmbedded n) = false := by
  have hlt : RefTarget.cEmbedded + RefTarget.cEmbedded < u32Size := by decide
  have hpos : 0 < RefTarget.cEmbedded := by decide
  have hse : RefTarget.SetEmbedded n = n + RefTarget.cEmbedded := by
    show (n + RefTarget.cEmbedded) % u32Size = n + RefTarget.cEmbedded
    exact Nat.mod_eq_of_lt (by omega)
  refine ⟨?_, hse, ?_, ?_⟩
  · show decide (n < RefTarget.cEmbedded) = true
    exact decide_eq_true hn
  · intro k hk
    rw [hse, releaseIter_val (n + RefTarget.cEmbedded) (by omega) k (by omega)]
    omega
  · rw [hse]
    show decide (n + RefTarget.cEmbedded < RefTarget.cEmbedded) = false
    exact decide_eq_false (by omega)

/-- Witness for C4 at n = 2 prior increments and k = 2 releases. -/
theorem set_embedded_c4_w : releaseIter (RefTarget.SetEmbedded 2) 2 ≠ 0 :=
  (set_embedded_c4 2 (by decide)).2.2.1 2 (by decide)

/-- Claim C7: after SetEmbedded on a counter of n prior net increments,
every sequence of up to n Release calls leaves the counter non-zero at
every step, and every Release call in such a sequence reports no
destruction (the destruction branch is unreachable). -/
theorem embedded_no_destroy_c7 (n : Nat) (hn : n < RefTarget.cEmbedded)
    (k : Nat) (hk : k ≤ n) :
    releaseIter (RefTarget.SetEmbedded n) k ≠ 0 ∧
    (1 ≤ k →
      (RefTarget.Release (releaseIter (RefTarget.SetEmbedded n) (k - 1))).2 = false) := by
  have hlt : RefTarget.cEmbedded + RefTarget.cEmbedded < u32Size := by decide
  have hpos : 0 < RefTarget.cEmbedded := by decide
  have hse : RefTarget.SetEmbedded n = n + RefTarget.cEmbedded := by
    show (n + RefTarget.cEmbedded) % u32Size = n + RefTarget.cEmbedded
    exact Nat.mod_eq_of_lt (by omega)
  have hrange : n + RefTarget.cEmbedded < u32Size := by omega
  constructor
  · rw [hse, releaseIter_val (n + RefTarget.cEmbedded) hrange k (by omega)]
    omega
  · intro hk1
    rw [hse, releaseIter_val (n + RefTarget.cEmbedded) hrange (k - 1) (by omega)]
    have hv : (RefTarget.Release (n + RefTarget.cEmbedded - (k - 1))).1 =
        n + RefTarget.cEmbedded - (k - 1) - 1 :=
      release_val _ (by omega) (by omega)
    cases hb : (RefTarget.Release (n + RefTarget.cEmbedded - (k - 1))).2 with
    | false => rfl
    | true =>
      have := (release_flag (n + RefTarget.cEmbedded - (k - 1))).mp hb
      rw [hv] at this
      omega

/-- Witness for C7 at n = 3 prior increments, k = 2 releases. -/
theorem embedded_no_destroy_c7_w :
    releaseIter (RefTarget.SetEmbedded 3) 2 ≠ 0 :=
  (embedded_no_destroy_c7 3 (by decide) 2 (by decide)).1

/-- Claim C3: for any sequence of counter operations on an object created
with counter 0 in which every AddRef is matched by a Release (equal
counts) and SetEmbedded is called at most once, the final counter value
satisfies the destructor assertion (it is 0 or exactly cEmbedded); and
every other counter value fails the destructor assertion, triggering the
fatal diagnostic. -/
theorem destructor_assert_c3 (l : List Op)
    (hbal : addCount l = relCount l) (hemb : embCount l ≤ 1) :
    RefTarget.destructorAssert (applyOps 0 l) = true ∧
    (∀ c : Nat, c ≠ 0 → c ≠ RefTarget.cEmbedded →
      RefTarget.destructorAssert c = false) := by
  constructor
  · have h1 := applyOps_eq_mod l 0 (by decide)
    have h2 := stepSum_eq l
    rw [hbal] at h2
    have h3 : stepSum l =
        u32Size * relCount l + RefTarget.cEmbedded * embCount l := by
      linarith
    rw [h1, Nat.zero_add, h3, Nat.mul_add_mod]
    have h4 : embCount l = 0 ∨ embCount l = 1 := by omega
    rcases h4 with h4 | h4
    · rw [h4, Nat.mul_zero]
      decide
    · rw [h4, Nat.mul_one,
        Nat.mod_eq_of_lt (show RefTarget.cEmbedded < u32Size by decide)]
      show (RefTarget.cEmbedded == 0 || RefTarget.cEmbedded == RefTarget.cEmbedded) = true
      decide
  · intro c hc0 hcE
    show (c == 0 || c == RefTarget.cEmbedded) = false
    rw [Bool.or_eq_false_iff]
    constructor
    · exact beq_false_of_ne hc0
    · exact beq_false_of_ne hcE

/-- Witness for C3 on the concrete sequence AddRef, SetEmbedded, Release. -/
theorem destructor_assert_c3_w :
    RefTarget.destructorAssert
      (applyOps 0 [Op.addRef, Op.setEmbedded, Op.release]) = true :=
  (destructor_assert_c3 [Op.addRef, Op.setEmbedded, Op.release]
    (by decide) (by decide)).1

/-- Claim C5: assigning to a handle the pointer it already holds (whether
from a raw pointer or from another handle holding the same pointer) is a
complete no-op: the heap (every counter and every destroyed flag) and the
stored pointer are unchanged, for both Ref and RefConst. -/
theorem self_assign_noop_c5 (h : Heap) (p : Option Nat) :
    Ref.assign h p p = (h, p) ∧
    Ref.assignRef h p p = (h, p) ∧
    RefConst.assign h p p = (h, p) ∧
    RefConst.assignRef h p p = (h, p) := by
  refine ⟨?_, ?_, ?_, ?_⟩ <;>
    simp [Ref.assign, Ref.assignRef, RefConst.assign, RefConst.assignRef]

/-- Heap with every counter 1 and nothing destroyed, for the C2
counterexample. -/
def heapOnes : Heap := { cnt := fun _ => 1, destroyed := fun _ => false }

/-- Counterexample refuting C2 as stated: move-assigning a handle that
holds pointer 1 (target counter 1) from a source holding pointer 2
decrements object 1's counter to 0 and destroys it, so a counter of an
object other than the moved target is decremented; and move-assigning
between two handles holding the same pointer 3 leaves the source still
holding pointer 3, not Empty. -/
theorem move_assign_c2_cex :
    (Ref.moveAssign heapOnes (some 1) (some 2)).1.cnt 1 = 0 ∧
    heapOnes.cnt 1 = 1 ∧
    (Ref.moveAssign heapOnes (some 1) (some 2)).1.destroyed 1 = true ∧
    (Ref.moveAssign heapOnes (some 3) (some 3)).2.2 = some 3 := by
  refine ⟨by decide, rfl, by decide, by decide⟩

/-- Heap with every counter 2 and nothing destroyed, for the C2 witness. -/
def heapTwos : Heap := { cnt := fun _ => 2, destroyed := fun _ => false }

/-- Claim C2 (amended): move construction (for Ref, RefConst, and
RefConst-from-Ref) transfers the pointer, touches no counter, and empties
the source.  Move assignment is a no-op when the destination already
holds the source's pointer (the source is left unchanged); when the
pointers differ, the destination's previously held target is Released
(its counter decremented, destroying it if the count reaches 0), the
destination takes the source's pointer, the source becomes Empty, and the
moved target's own counter is unchanged. -/
theorem move_semantics_c2 (h : Heap) (self src : Option Nat) :
    Ref.moveConstruct h src = (h, src, none) ∧
    RefConst.moveConstruct h src = (h, src, none) ∧
    RefConst.moveConstructFromRef h src = (h, src, none) ∧
    (self = src →
      Ref.moveAssign h self src = (h, self, src) ∧
      RefConst.moveAssign h self src = (h, self, src) ∧
      RefConst.moveAssignFromRef h self src = (h, self, src)) ∧
    (self ≠ src →
      Ref.moveAssign h self src = (Ref.Release h self, src, none) ∧
      RefConst.moveAssign h self src = (RefConst.Release h self, src, none) ∧
      RefConst.moveAssignFromRef h self src = (RefConst.Release h self, src, none) ∧
      (∀ q : Nat, src = some q →
        (Ref.moveAssign h self src).1.cnt q = h.cnt q)) := by
  refine ⟨rfl, rfl, rfl, ?_, ?_⟩
  · intro he
    subst he
    refine ⟨?_, ?_, ?_⟩ <;>
      simp [Ref.moveAssign, RefConst.moveAssign, RefConst.moveAssignFromRef]
  · intro hne
    refine ⟨?_, ?_, ?_, ?_⟩
    · simp [Ref.moveAssign, hne]
    · simp [RefConst.moveAssign, hne]
    · simp [RefConst.moveAssignFromRef, hne]
    · intro q hq
      subst hq
      simp only [Ref.moveAssign, if_neg hne]
      cases self with
      | none => rfl
      | some t =>
        have hqt : ¬ q = t := by
          intro he2
          apply hne
          rw [he2]
        simp [Ref.Release, Heap.targetRelease, hqt]

/-- Witness for C2 (amended) at distinct concrete pointers 1 and 2. -/
theorem move_semantics_c2_w :
    Ref.moveAssign heapTwos (some 1) (some 2) =
      (Ref.Release heapTwos (some 1), some 2, none) :=
  ((move_semantics_c2 heapTwos (some 1) (some 2)).2.2.2.2 (by decide)).1

/-- Claim C8: for both handle kinds, equality and hash are functions of
the stored pointer only: handles holding the same pointer compare equal
and hash equal (for any pointer hash function), a null-holding handle
compares equal to null and unequal to every non-null pointer, and the
inequality operators are the negation of the corresponding equality
operators. -/
theorem ptr_eq_hash_c8 (hp hpc : Option Nat → Nat) (a b : Option Nat) (r : Nat) :
    (a = b →
      Ref.eqRef a b = true ∧
      Ref.hashOf hp a = Ref.hashOf hp b ∧
      RefConst.eqRef a b = true ∧
      RefConst.hashOf hpc a = RefConst.hashOf hpc b) ∧
    Ref.eqPtr none none = true ∧
    Ref.eqPtr none (some r) = false ∧
    RefConst.eqPtr none (some r) = false ∧
    Ref.neRef a b = !(Ref.eqRef a b) ∧
    Ref.nePtr a b = !(Ref.eqPtr a b) ∧
    RefConst.neRef a b = !(RefConst.eqRef a b) := by
  refine ⟨?_, rfl, rfl, rfl, rfl, rfl, rfl⟩
  intro he
  subst he
  simp [Ref.eqRef, RefConst.eqRef, Ref.hashOf, RefConst.hashOf]

/-- Witness for C8: two handles holding the concrete pointer 5 compare
equal. -/
theorem ptr_eq_hash_c8_w : Ref.eqRef (some 5) (some 5) = true :=
  ((ptr_eq_hash_c8 (fun _ => 0) (fun _ => 0) (some 5) (some 5) 3).1 rfl).1

end JoltRef
